import Mathlib

/-!
Shallow embedding of `cypheralchemy.py`, a client driver for neo4j's HTTP
transaction endpoint, together with proofs about its transaction state
machine and error handling.

Conventions of the embedding:
* Python exceptions are modelled by `Except PyErr`; mutation of the
  `Transaction` object is modelled by explicit state passing.
* The urllib3 connection is modelled by handing each request-issuing
  operation the `Response` the server would return; every operation also
  returns the list of HTTP `Request`s it issued, so "no network call"
  is expressible as `requests = []`.
* The composite `json.loads (response.data.decode ...)` step is modelled by
  `Response.body : Option Payload`: `none` stands for any body on which
  decoding fails, `some p` for a body that decodes to the schema the code
  reads (top-level `errors` and `results` keys).
-/

/-- Values of statement parameters and of result rows are arbitrary JSON
values; no code path of the client inspects their contents, so they are
modelled opaquely as wrapped strings. -/
structure JVal where
  raw : String
deriving DecidableEq, Repr

/-- A parameter mapping, as carried by a statement. -/
abbrev Params := List (String × JVal)

/-- One element of the `statements` list, the dict built by `add_statement`:
`\x7b'statement': cypher\x7d`, plus a `parameters` key only when the `params`
argument is truthy. -/
structure Statement where
  statement : String
  parameters : Option Params
deriving DecidableEq, Repr

/-- One entry of the response's top-level `errors` list. The code reads
`code` and `message` with `dict.get`, so each may be absent. -/
structure ErrorInfo where
  code : Option String
  message : Option String
deriving DecidableEq, Repr

/-- One entry of a result block's `data` list: `\x7b'row': [...]\x7d`. -/
structure ResultRow where
  row : List JVal
deriving DecidableEq, Repr

/-- One entry of the response's `results` list: `\x7b'data': [...]\x7d`. -/
structure ResultBlock where
  data : List ResultRow
deriving DecidableEq, Repr

/-- A decoded response body. `none` in a field models an absent key
(the code reads both keys with `dict.get` or guarded subscripts). -/
structure Payload where
  errors : Option (List ErrorInfo)
  results : Option (List ResultBlock)
deriving DecidableEq, Repr

/-- A transport response: its headers and the decoding outcome of its body. -/
structure Response where
  headers : List (String × String)
  body : Option Payload
deriving DecidableEq, Repr

/-- Header lookup, `response.headers[k]` / `k in response.headers`. -/
def headersGet (hs : List (String × String)) (k : String) : Option String :=
  (hs.find? (fun kv => kv.1 == k)).map (fun kv => kv.2)

/-- An HTTP request issued through the connection: method, path, and the
statements carried in the `\x7b'statements': ...\x7d` JSON body (`none` when
no body is sent, as in `rollback`'s DELETE). -/
structure Request where
  method : String
  path : String
  body : Option (List Statement)
deriving DecidableEq, Repr

/-- The Python exceptions the source can raise: the library's own classes
(`TransactionClosedError` and `CypherSyntaxError`, both subclasses of
`RequestError`, itself below `CypherAlchemyError`), and the built-in errors
that can escape: `KeyError` from header or format-field lookup, the JSON
decoder's error, and `IndexError` from subscripting an empty `results`.
The source defines no further error class — in particular no
`ProtocolError` and no `TransactionNotBegunError`. -/
inductive PyErr where
  | transactionClosedError (msg : Option String)
  | cypherSyntaxError (msg : Option String)
  | requestError (msg : String)
  | keyError (key : String)
  | indexError
  | jsonDecodeError
deriving DecidableEq, Repr

/-- Membership in the source's `RequestError` class (directly or via a
subclass: `TransactionClosedError` and `CypherSyntaxError` both derive
from it). -/
def isRequestError : PyErr → Bool
  | .transactionClosedError _ => true
  | .cypherSyntaxError _ => true
  | .requestError _ => true
  | _ => false

/-- Membership in the library's exception taxonomy rooted at
`CypherAlchemyError`: every class the source defines below the root is
`RequestError` or one of its subclasses. -/
def isCypherAlchemyError (e : PyErr) : Bool := isRequestError e

/-- Embeds `Transaction.BASE_PATH`. -/
def BASE_PATH : String := "/db/data/transaction"

/-- Embeds `TRANSACTION_TIMED_OUT_CODE`. -/
def TRANSACTION_TIMED_OUT_CODE : String := "Neo.ClientError.Transaction.UnknownId"

/-- Embeds `CYPHER_SYNTAX_ERROR_CODE`. -/
def CYPHER_SYNTAX_ERROR_CODE : String := "Neo.ClientError.Statement.InvalidSyntax"

/-- The state of a `Transaction` object (the connection field is omitted:
the transport is threaded through `Response` arguments instead). -/
structure Transaction where
  location : String
  started : Bool
  committed : Bool
  rolled_back : Bool
  executed_statements : List Statement
  statements : List Statement
deriving DecidableEq, Repr

/-- Embeds `Transaction.__init__`. -/
def Transaction.init : Transaction :=
  { location := BASE_PATH
    started := false
    committed := false
    rolled_back := false
    executed_statements := []
    statements := [] }

/-- Embeds `Transaction.is_operable`. -/
def Transaction.is_operable (t : Transaction) : Bool :=
  !(t.committed || t.rolled_back)

/-- The message built by the `_assert_operable` guard decorator. -/
def assert_operable_message (fname : String) (t : Transaction) : String :=
  "Attempted to call " ++ fname ++ "() on an already " ++
    (if t.committed then "committed" else "rolled-back") ++ " transaction"

/-- The statement dict built by `add_statement`: the `parameters` key is
present only when the `params` argument is truthy (neither `None` nor an
empty mapping). -/
def mk_statement (cypher : String) (params : Option Params) : Statement :=
  match params with
  | some ps =>
    if ps.isEmpty then { statement := cypher, parameters := none }
    else { statement := cypher, parameters := some ps }
  | none => { statement := cypher, parameters := none }

/-- Embeds `Transaction._process_response`: adopt a `location` header when one is
present (setting `started`), look up `content-encoding` (a missing header is
a `KeyError`), decode the body (a malformed body is the JSON decoder's
error), then inspect the top-level `errors` list: when non-empty, mark the
transaction rolled back, and additionally raise `TransactionClosedError`
when the first error carries the timed-out code; otherwise return the
decoded data. -/
def Transaction.process_response (t : Transaction) (r : Response) :
    Transaction × Except PyErr Payload :=
  let t1 :=
    match headersGet r.headers "location" with
    | some loc => { t with location := loc, started := true }
    | none => t
  match headersGet r.headers "content-encoding" with
  | none => (t1, .error (.keyError "content-encoding"))
  | some _ =>
    match r.body with
    | none => (t1, .error .jsonDecodeError)
    | some data =>
      match data.errors with
      | some (e0 :: _) =>
        let t2 := { t1 with rolled_back := true }
        if e0.code == some TRANSACTION_TIMED_OUT_CODE then
          (t2, .error (.transactionClosedError e0.message))
        else
          (t2, .ok data)
      | _ => (t1, .ok data)

/-- Embeds `Transaction._archive_current_statements`. -/
def Transaction.archive_current_statements (t : Transaction) : Transaction :=
  if t.statements.isEmpty then t
  else
    { t with
        executed_statements := t.executed_statements ++ t.statements
        statements := [] }

/-- Embeds `Transaction.add_statement` (guarded by `_assert_operable`). -/
def Transaction.add_statement (t : Transaction) (cypher : String)
    (params : Option Params) : Transaction × List Request × Except PyErr Unit :=
  if !t.is_operable then
    (t, [], .error (.transactionClosedError
      (some (assert_operable_message "add_statement" t))))
  else
    ({ t with statements := t.statements ++ [mk_statement cypher params] },
      [], .ok ())

/-- Embeds `Transaction.execute` (guarded by `_assert_operable`): no statements is
a no-op returning `None`; otherwise POST the statements to `location`,
process the response, and archive the statements just sent (archival is
skipped when response processing raises). -/
def Transaction.execute (t : Transaction) (r : Response) :
    Transaction × List Request × Except PyErr (Option Payload) :=
  if !t.is_operable then
    (t, [], .error (.transactionClosedError
      (some (assert_operable_message "execute" t))))
  else if t.statements.isEmpty then
    (t, [], .ok none)
  else
    let req : Request :=
      { method := "POST", path := t.location, body := some t.statements }
    match t.process_response r with
    | (t1, .error e) => (t1, [req], .error e)
    | (t1, .ok data) => (t1.archive_current_statements, [req], .ok (some data))

/-- Embeds `Transaction.commit` (guarded by `_assert_operable`): POST the current
statements (even when there are none) to `location + "/commit"`, process
the response, archive, and mark committed (the last two steps are skipped
when response processing raises). -/
def Transaction.commit (t : Transaction) (r : Response) :
    Transaction × List Request × Except PyErr Payload :=
  if !t.is_operable then
    (t, [], .error (.transactionClosedError
      (some (assert_operable_message "commit" t))))
  else
    let req : Request :=
      { method := "POST", path := t.location ++ "/commit",
        body := some t.statements }
    match t.process_response r with
    | (t1, .error e) => (t1, [req], .error e)
    | (t1, .ok data) =>
      ({ t1.archive_current_statements with committed := true }, [req], .ok data)

/-- Embeds `Transaction.rollback` (guarded by `_assert_operable`): a non-started
transaction is rejected locally with a `TransactionClosedError`; otherwise
DELETE `location`, process the response, and mark rolled back (skipped when
response processing raises). -/
def Transaction.rollback (t : Transaction) (r : Response) :
    Transaction × List Request × Except PyErr Payload :=
  if !t.is_operable then
    (t, [], .error (.transactionClosedError
      (some (assert_operable_message "rollback" t))))
  else if !t.started then
    (t, [], .error (.transactionClosedError
      (some "Cannot rollback non-started transaction.")))
  else
    let req : Request :=
      { method := "DELETE", path := t.location, body := none }
    match t.process_response r with
    | (t1, .error e) => (t1, [req], .error e)
    | (t1, .ok data) => ({ t1 with rolled_back := true }, [req], .ok data)

/-- The value `Query.cypher` produces: the raw decoded payload when
`raw=True`, otherwise the extracted rows. -/
inductive CypherResult where
  | raw (p : Payload)
  | rows (rs : List (List JVal))
deriving DecidableEq, Repr

/-- Embeds `Query.cypher`, acting on the session's current transaction `t`:
add one statement, commit, and either return the raw payload or interpret
it — raising `CypherSyntaxError` on the syntax-error code, a generic
`RequestError` on any other reported error, and extracting
`response['results'][0]['data']` rows otherwise. -/
def Query.cypher (t : Transaction) (cypher_string : String) (params : Params)
    (raw : Bool) (r : Response) :
    Transaction × List Request × Except PyErr CypherResult :=
  match t.add_statement cypher_string (some params) with
  | (t1, _, .error e) => (t1, [], .error e)
  | (t1, _, .ok _) =>
    match t1.commit r with
    | (t2, reqs, .error e) => (t2, reqs, .error e)
    | (t2, reqs, .ok response) =>
      if raw then (t2, reqs, .ok (.raw response))
      else
        match response.errors with
        | some (e0 :: _) =>
          if e0.code == some CYPHER_SYNTAX_ERROR_CODE then
            (t2, reqs, .error (.cypherSyntaxError e0.message))
          else
            match e0.code, e0.message with
            | some c, some m => (t2, reqs, .error (.requestError (c ++ ": " ++ m)))
            | none, _ => (t2, reqs, .error (.keyError "code"))
            | some _, none => (t2, reqs, .error (.keyError "message"))
        | _ =>
          match response.results with
          | none => (t2, reqs, .error (.keyError "results"))
          | some [] => (t2, reqs, .error .indexError)
          | some (res0 :: _) =>
            (t2, reqs, .ok (.rows (res0.data.map (fun rr => rr.row))))

/-- One client operation together with the transport response it would
receive (ignored by `addStmt`, which issues no request). -/
inductive Op where
  | addStmt (cypher : String) (params : Option Params)
  | execOp (r : Response)
  | commitOp (r : Response)
  | rollbackOp (r : Response)
deriving Repr

/-- The transaction state reached after one operation, whatever the
operation's outcome. -/
def Transaction.step (t : Transaction) : Op → Transaction
  | .addStmt c p => (t.add_statement c p).1
  | .execOp r => (t.execute r).1
  | .commitOp r => (t.commit r).1
  | .rollbackOp r => (t.rollback r).1

/-- The state after a sequence of operations starting from `t`. -/
def Transaction.runFrom (t : Transaction) (ops : List Op) : Transaction :=
  ops.foldl Transaction.step t

/-- The states reachable from a fresh transaction. -/
def Transaction.run (ops : List Op) : Transaction :=
  Transaction.runFrom Transaction.init ops

theorem process_response_preserves_lists (t : Transaction) (r : Response) :
    (t.process_response r).1.statements = t.statements ∧
    (t.process_response r).1.executed_statements = t.executed_statements ∧
    (t.process_response r).1.committed = t.committed := by
  unfold Transaction.process_response
  rcases hloc : headersGet r.headers "location" with _ | loc <;>
  rcases henc : headersGet r.headers "content-encoding" with _ | enc <;>
  rcases hb : r.body with _ | data <;>
  simp only [hloc, henc, hb] <;>
  try simp
  all_goals
    (rcases herr : data.errors with _ | ⟨_ | ⟨e0, es⟩⟩ <;>
      simp only [herr] <;> (try split) <;> simp_all)

theorem archive_current_statements_spec (t : Transaction) :
    (t.archive_current_statements).executed_statements = t.executed_statements ++ t.statements ∧
    (t.archive_current_statements).statements = [] ∧
    (t.archive_current_statements).committed = t.committed ∧
    (t.archive_current_statements).rolled_back = t.rolled_back := by
  unfold Transaction.archive_current_statements
  split
  · rename_i h
    rw [List.isEmpty_iff] at h
    simp [h]
  · exact ⟨rfl, rfl, rfl, rfl⟩

theorem process_response_errors_rolled_back (t : Transaction) (r : Response)
    (p : Payload) (e0 : ErrorInfo) (es : List ErrorInfo) (enc : String)
    (henc : headersGet r.headers "content-encoding" = some enc)
    (hbody : r.body = some p) (herr : p.errors = some (e0 :: es)) :
    (t.process_response r).1.rolled_back = true := by
  unfold Transaction.process_response
  rcases hloc : headersGet r.headers "location" with _ | loc <;>
    simp only [hloc, henc, hbody, herr] <;> split <;> rfl

theorem process_response_timeout_outcome (t : Transaction) (r : Response)
    (p : Payload) (e0 : ErrorInfo) (es : List ErrorInfo) (enc : String)
    (henc : headersGet r.headers "content-encoding" = some enc)
    (hbody : r.body = some p) (herr : p.errors = some (e0 :: es))
    (hcode : e0.code = some TRANSACTION_TIMED_OUT_CODE) :
    (t.process_response r).2 = .error (.transactionClosedError e0.message) := by
  unfold Transaction.process_response
  rcases hloc : headersGet r.headers "location" with _ | loc <;>
    simp [hloc, henc, hbody, herr, hcode]

theorem process_response_nontimeout_outcome (t : Transaction) (r : Response)
    (p : Payload) (e0 : ErrorInfo) (es : List ErrorInfo) (enc c : String)
    (henc : headersGet r.headers "content-encoding" = some enc)
    (hbody : r.body = some p) (herr : p.errors = some (e0 :: es))
    (hcode : e0.code = some c) (hne : c ≠ TRANSACTION_TIMED_OUT_CODE) :
    (t.process_response r).2 = .ok p := by
  unfold Transaction.process_response
  rcases hloc : headersGet r.headers "location" with _ | loc <;>
    simp [hloc, henc, hbody, herr, hcode, hne]

theorem process_response_no_errors_outcome (t : Transaction) (r : Response)
    (p : Payload) (enc : String)
    (henc : headersGet r.headers "content-encoding" = some enc)
    (hbody : r.body = some p)
    (herr : p.errors = none ∨ p.errors = some []) :
    (t.process_response r).2 = .ok p ∧
    (t.process_response r).1.rolled_back = t.rolled_back ∧
    (t.process_response r).1.committed = t.committed := by
  unfold Transaction.process_response
  rcases herr with herr | herr <;>
    rcases hloc : headersGet r.headers "location" with _ | loc <;>
      simp [hloc, henc, hbody, herr]

theorem process_response_missing_encoding (t : Transaction) (r : Response)
    (henc : headersGet r.headers "content-encoding" = none) :
    (t.process_response r).2 = .error (.keyError "content-encoding") ∧
    (t.process_response r).1.rolled_back = t.rolled_back ∧
    (t.process_response r).1.committed = t.committed := by
  unfold Transaction.process_response
  rcases hloc : headersGet r.headers "location" with _ | loc <;>
    simp [hloc, henc]

theorem process_response_malformed_body (t : Transaction) (r : Response) (enc : String)
    (henc : headersGet r.headers "content-encoding" = some enc)
    (hbody : r.body = none) :
    (t.process_response r).2 = .error .jsonDecodeError ∧
    (t.process_response r).1.rolled_back = t.rolled_back := by
  unfold Transaction.process_response
  rcases hloc : headersGet r.headers "location" with _ | loc <;>
    simp [hloc, henc, hbody]

theorem process_response_location (t : Transaction) (r : Response) :
    (∀ loc, headersGet r.headers "location" = some loc →
      (t.process_response r).1.location = loc ∧
      (t.process_response r).1.started = true) ∧
    (headersGet r.headers "location" = none →
      (t.process_response r).1.location = t.location ∧
      (t.process_response r).1.started = t.started) := by
  unfold Transaction.process_response
  constructor
  · intro loc hloc
    rcases henc : headersGet r.headers "content-encoding" with _ | enc <;>
      rcases hb : r.body with _ | data <;>
        simp only [hloc, henc, hb] <;>
        try simp
    all_goals
      (rcases herr : data.errors with _ | ⟨_ | ⟨e0, es⟩⟩ <;>
        simp only [herr] <;> (try split) <;> simp_all)
  · intro hloc
    rcases henc : headersGet r.headers "content-encoding" with _ | enc <;>
      rcases hb : r.body with _ | data <;>
        simp only [hloc, henc, hb] <;>
        try simp
    all_goals
      (rcases herr : data.errors with _ | ⟨_ | ⟨e0, es⟩⟩ <;>
        simp only [herr] <;> (try split) <;> simp_all)

theorem is_operable_false_of_closed (t : Transaction)
    (h : t.committed = true ∨ t.rolled_back = true) : t.is_operable = false := by
  unfold Transaction.is_operable
  rcases h with h | h <;> simp [h]

theorem add_statement_closed (t : Transaction) (c : String) (p : Option Params)
    (hop : t.is_operable = false) :
    t.add_statement c p = (t, [],
      .error (.transactionClosedError (some (assert_operable_message "add_statement" t)))) := by
  simp [Transaction.add_statement, hop]

theorem execute_closed (t : Transaction) (r : Response)
    (hop : t.is_operable = false) :
    t.execute r = (t, [],
      .error (.transactionClosedError (some (assert_operable_message "execute" t)))) := by
  simp [Transaction.execute, hop]

theorem commit_closed (t : Transaction) (r : Response)
    (hop : t.is_operable = false) :
    t.commit r = (t, [],
      .error (.transactionClosedError (some (assert_operable_message "commit" t)))) := by
  simp [Transaction.commit, hop]

theorem rollback_closed (t : Transaction) (r : Response)
    (hop : t.is_operable = false) :
    t.rollback r = (t, [],
      .error (.transactionClosedError (some (assert_operable_message "rollback" t)))) := by
  simp [Transaction.rollback, hop]

theorem step_closed_fixed (t : Transaction) (op : Op)
    (hop : t.is_operable = false) : t.step op = t := by
  cases op with
  | addStmt c p => simp [Transaction.step, add_statement_closed t c p hop]
  | execOp r => simp [Transaction.step, execute_closed t r hop]
  | commitOp r => simp [Transaction.step, commit_closed t r hop]
  | rollbackOp r => simp [Transaction.step, rollback_closed t r hop]

theorem execute_outcome_eq (t : Transaction) (r : Response)
    (hop : t.is_operable = true) (hne : t.statements ≠ []) :
    (t.execute r).2.2 = ((t.process_response r).2).map some ∧
    (t.execute r).2.1 =
      [{ method := "POST", path := t.location, body := some t.statements }] := by
  unfold Transaction.execute
  have hie : t.statements.isEmpty = false := by
    simp [List.isEmpty_iff, hne]
  rcases hpr : t.process_response r with ⟨t1, res⟩
  rcases res with e | d <;> simp [hop, hie, hpr, Except.map]

theorem commit_outcome_eq (t : Transaction) (r : Response)
    (hop : t.is_operable = true) :
    (t.commit r).2.2 = (t.process_response r).2 ∧
    (t.commit r).2.1 =
      [{ method := "POST", path := t.location ++ "/commit", body := some t.statements }] := by
  unfold Transaction.commit
  rcases hpr : t.process_response r with ⟨t1, res⟩
  rcases res with e | d <;> simp [hop, hpr]

theorem rollback_outcome_eq (t : Transaction) (r : Response)
    (hop : t.is_operable = true) (hst : t.started = true) :
    (t.rollback r).2.2 = (t.process_response r).2 ∧
    (t.rollback r).2.1 =
      [{ method := "DELETE", path := t.location, body := none }] := by
  unfold Transaction.rollback
  rcases hpr : t.process_response r with ⟨t1, res⟩
  rcases res with e | d <;> simp [hop, hst, hpr]

/-- A statement fixture used by concrete scenarios. -/
def stmtMatch : Statement := { statement := "MATCH (n) RETURN n", parameters := none }

/-- A response reporting a server error with a code that is neither the
timed-out code nor the syntax-error code. -/
def respErr : Response :=
  { headers := [("content-encoding", "utf-8")],
    body := some
      { errors := some [{ code := some "Neo.ClientError.Statement.EntityNotFound",
                          message := some "boom" }],
        results := none } }

/-- The error entry of an expired-transaction response. -/
def errTimeout : ErrorInfo :=
  { code := some TRANSACTION_TIMED_OUT_CODE, message := some "expired" }

/-- The decoded body of an expired-transaction response. -/
def payloadTimeout : Payload := { errors := some [errTimeout], results := none }

/-- A response whose first error carries the timed-out code. -/
def respTimeout : Response :=
  { headers := [("content-encoding", "utf-8")], body := some payloadTimeout }

/-- The error entry of a syntax-error response. -/
def errSyntaxErr : ErrorInfo :=
  { code := some CYPHER_SYNTAX_ERROR_CODE, message := some "Invalid input" }

/-- The decoded body of a syntax-error response. -/
def payloadSyntaxErr : Payload := { errors := some [errSyntaxErr], results := none }

/-- A response whose first error carries the syntax-error code. -/
def respSyntaxErr : Response :=
  { headers := [("content-encoding", "utf-8")], body := some payloadSyntaxErr }

/-- A clean response carrying a location header and one empty result row. -/
def respClean : Response :=
  { headers := [("location", "/db/data/transaction/9"), ("content-encoding", "utf-8")],
    body := some { errors := none, results := some [{ data := [{ row := [] }] }] } }

/-- A clean response carrying the given location header. -/
def respLoc (l : String) : Response :=
  { headers := [("location", l), ("content-encoding", "utf-8")],
    body := some { errors := none, results := some [{ data := [] }] } }

/-- A response whose body fails to decode. -/
def respMalformed : Response :=
  { headers := [("content-encoding", "utf-8")], body := none }

/-- A response with no content-encoding header but a perfectly well-formed
body that even reports an error. -/
def respNoEncoding : Response :=
  { headers := [],
    body := some
      { errors := some [{ code := some "Neo.ClientError.Statement.EntityNotFound",
                          message := some "boom" }],
        results := none } }

/-- A transaction closed by commit. -/
def tCommitted : Transaction := { Transaction.init with committed := true }

/-- A transaction closed by rollback. -/
def tRolledBack : Transaction := { Transaction.init with rolled_back := true }

/-- A fresh transaction carrying one pending statement. -/
def tPending : Transaction := { Transaction.init with statements := [stmtMatch] }

/-- A started transaction carrying one pending statement. -/
def tPendingStarted : Transaction :=
  { Transaction.init with started := true, statements := [stmtMatch] }

/-- Claim C1: once `committed` or `rolled_back` is true, every subsequent
call to `add_statement`, `execute`, `commit` or `rollback` fails with
`TransactionClosedError` (whose message records which operation was
attempted and whether the transaction was committed or rolled back), leaves
the state unchanged, and issues no network request. -/
theorem C1_closed_transaction_rejects_all_operations (t : Transaction)
    (c : String) (p : Option Params) (r : Response)
    (h : t.committed = true ∨ t.rolled_back = true) :
    t.add_statement c p = (t, [], .error (.transactionClosedError
      (some (assert_operable_message "add_statement" t)))) ∧
    t.execute r = (t, [], .error (.transactionClosedError
      (some (assert_operable_message "execute" t)))) ∧
    t.commit r = (t, [], .error (.transactionClosedError
      (some (assert_operable_message "commit" t)))) ∧
    t.rollback r = (t, [], .error (.transactionClosedError
      (some (assert_operable_message "rollback" t)))) := by
  have hop := is_operable_false_of_closed t h
  exact ⟨add_statement_closed t c p hop, execute_closed t r hop,
    commit_closed t r hop, rollback_closed t r hop⟩

/-- Witness for C1, on a committed transaction and a concrete response. -/
theorem C1_closed_transaction_rejects_all_operations_witness :
    tCommitted.add_statement "CREATE (n)" none = (tCommitted, [],
      .error (.transactionClosedError
        (some (assert_operable_message "add_statement" tCommitted)))) ∧
    tCommitted.execute respClean = (tCommitted, [],
      .error (.transactionClosedError
        (some (assert_operable_message "execute" tCommitted)))) ∧
    tCommitted.commit respClean = (tCommitted, [],
      .error (.transactionClosedError
        (some (assert_operable_message "commit" tCommitted)))) ∧
    tCommitted.rollback respClean = (tCommitted, [],
      .error (.transactionClosedError
        (some (assert_operable_message "rollback" tCommitted)))) :=
  C1_closed_transaction_rejects_all_operations tCommitted "CREATE (n)" none respClean
    (Or.inl rfl)

/-- Claim C2 counterexample: committing a transaction whose response reports
a non-timeout error is a reachable scenario after which `committed` and
`rolled_back` are BOTH true — `_process_response` sets `rolled_back` on the
error and `commit` then sets `committed` unconditionally — so "at most one
of the flags is true" fails on the code. -/
theorem C2_counterexample :
    (Transaction.run [Op.addStmt "CREATE (n)" none, Op.commitOp respErr]).committed = true ∧
    (Transaction.run [Op.addStmt "CREATE (n)" none, Op.commitOp respErr]).rolled_back = true :=
  ⟨rfl, rfl⟩

/-- Claim C2 (amended): once `committed` or `rolled_back` is true, the
transaction state never changes again under any sequence of operations —
in particular neither flag ever reverts to false and the transaction never
becomes operable again. (The mutual-exclusion half of the original claim
fails; see the counterexample.) -/
theorem C2_closed_state_is_permanent (t : Transaction) (ops : List Op)
    (h : t.committed = true ∨ t.rolled_back = true) :
    t.runFrom ops = t := by
  have hop := is_operable_false_of_closed t h
  induction ops with
  | nil => rfl
  | cons op ops ih =>
    show Transaction.runFrom (t.step op) ops = t
    rw [step_closed_fixed t op hop]
    exact ih

/-- Witness for C2 (amended), on a rolled-back transaction. -/
theorem C2_closed_state_is_permanent_witness :
    tRolledBack.runFrom [Op.addStmt "CREATE (n)" none, Op.execOp respClean,
      Op.commitOp respClean, Op.rollbackOp respClean] = tRolledBack :=
  C2_closed_state_is_permanent tRolledBack _ (Or.inr rfl)

/-- Claim C4: whenever the decoded body of a processed response contains a
non-empty top-level `errors` list, the transaction is marked rolled back —
no matter what the first error's code is, i.e. both when processing returns
the payload and when it raises `TransactionClosedError`. -/
theorem C4_error_response_marks_rolled_back (t : Transaction) (r : Response)
    (p : Payload) (e0 : ErrorInfo) (es : List ErrorInfo) (enc : String)
    (henc : headersGet r.headers "content-encoding" = some enc)
    (hbody : r.body = some p) (herr : p.errors = some (e0 :: es)) :
    (t.process_response r).1.rolled_back = true :=
  process_response_errors_rolled_back t r p e0 es enc henc hbody herr

/-- Witness for C4, on a concrete error response (non-timeout code, so
processing returns the payload) and on a concrete timeout response (where
processing raises). -/
theorem C4_error_response_marks_rolled_back_witness :
    (Transaction.init.process_response respErr).1.rolled_back = true :=
  C4_error_response_marks_rolled_back Transaction.init respErr _ _ [] "utf-8" rfl rfl rfl

/-- Claim C6 counterexample: `rollback()` on an operable, never-started
transaction fails with `TransactionClosedError` — the source defines no
separate `TransactionNotBegunError` class, so the failure is NOT with an
error type distinct from the closed-transaction error. (The "no network
request" half does hold: the request list is empty.) -/
theorem C6_counterexample :
    Transaction.init.rollback respClean = (Transaction.init, [],
      .error (.transactionClosedError (some "Cannot rollback non-started transaction."))) :=
  rfl

/-- Claim C6 (amended): `rollback()` on an operable transaction whose
`started` flag is false fails locally with a `TransactionClosedError`
carrying the message "Cannot rollback non-started transaction." (not with a
distinct `TransactionNotBegunError`, which the code does not define), and
issues no network request. -/
theorem C6_rollback_before_started_fails_closed (t : Transaction) (r : Response)
    (hop : t.is_operable = true) (hst : t.started = false) :
    t.rollback r = (t, [],
      .error (.transactionClosedError (some "Cannot rollback non-started transaction."))) := by
  unfold Transaction.rollback
  simp [hop, hst]

/-- Witness for C6 (amended), on a fresh transaction. -/
theorem C6_rollback_before_started_fails_closed_witness :
    tPending.rollback respClean = (tPending, [],
      .error (.transactionClosedError (some "Cannot rollback non-started transaction."))) :=
  C6_rollback_before_started_fails_closed tPending respClean rfl rfl

/-- Claim C8 counterexample: on a response whose body fails to decode,
processing fails with the JSON decoder's own error — a Python built-in that
is not part of the library's exception taxonomy at all (the source defines
no `ProtocolError` class), so the claim that decoding failure fails with a
library error type `ProtocolError` distinct from `RequestError` is false. -/
theorem C8_counterexample :
    (Transaction.init.process_response respMalformed).2 = .error .jsonDecodeError ∧
    isCypherAlchemyError .jsonDecodeError = false :=
  ⟨rfl, rfl⟩

/-- Claim C8 (amended): a response whose body cannot be decoded makes
response processing fail with the JSON decoder's error, which is distinct
from the server-reported `RequestError` family — but it is a Python
built-in, not a library-defined `ProtocolError` (no such class exists in
the source). -/
theorem C8_malformed_body_raises_decode_error (t : Transaction) (r : Response)
    (enc : String)
    (henc : headersGet r.headers "content-encoding" = some enc)
    (hbody : r.body = none) :
    (t.process_response r).2 = .error .jsonDecodeError ∧
    isRequestError .jsonDecodeError = false ∧
    isCypherAlchemyError .jsonDecodeError = false := by
  refine ⟨(process_response_malformed_body t r enc henc hbody).1, rfl, rfl⟩

/-- Witness for C8 (amended), on a concrete malformed response. -/
theorem C8_malformed_body_raises_decode_error_witness :
    (tPendingStarted.process_response respMalformed).2 = .error .jsonDecodeError ∧
    isRequestError .jsonDecodeError = false ∧
    isCypherAlchemyError .jsonDecodeError = false :=
  C8_malformed_body_raises_decode_error tPendingStarted respMalformed "utf-8" rfl rfl

/-- Claim C9 counterexample: `_process_response` overwrites `location`
whenever a response carries a location header, so over a run in which two
responses carry different location headers the field changes twice — first
from the base path to "/db/data/transaction/1", then again to
"/db/data/transaction/2" — refuting "changes at most once". -/
theorem C9_counterexample :
    Transaction.init.location = BASE_PATH ∧
    (Transaction.run [Op.addStmt "CREATE (a)" none,
      Op.execOp (respLoc "/db/data/transaction/1")]).location = "/db/data/transaction/1" ∧
    (Transaction.run [Op.addStmt "CREATE (a)" none,
      Op.execOp (respLoc "/db/data/transaction/1"),
      Op.addStmt "CREATE (b)" none,
      Op.execOp (respLoc "/db/data/transaction/2")]).location = "/db/data/transaction/2" ∧
    ("/db/data/transaction/1" : String) ≠ BASE_PATH ∧
    ("/db/data/transaction/2" : String) ≠ "/db/data/transaction/1" := by
  refine ⟨rfl, rfl, rfl, by decide, by decide⟩

/-- Claim C9 (amended): `location` is overwritten with the header value on
EVERY processed response that carries a location header (and `started` is
set), and is left unchanged by responses without one; it therefore changes
at most once only when the server never sends a second, different location,
which the code does not enforce. -/
theorem C9_location_follows_every_location_header (t : Transaction) (r : Response) :
    (∀ loc, headersGet r.headers "location" = some loc →
      (t.process_response r).1.location = loc ∧
      (t.process_response r).1.started = true) ∧
    (headersGet r.headers "location" = none →
      (t.process_response r).1.location = t.location ∧
      (t.process_response r).1.started = t.started) := by
  unfold Transaction.process_response
  constructor
  · intro loc hloc
    rcases henc : headersGet r.headers "content-encoding" with _ | enc <;>
      rcases hb : r.body with _ | data <;>
        simp only [hloc, henc, hb] <;>
        try simp
    all_goals
      (rcases herr : data.errors with _ | ⟨_ | ⟨e0, es⟩⟩ <;>
        simp only [herr] <;> (try split) <;> simp_all)
  · intro hloc
    rcases henc : headersGet r.headers "content-encoding" with _ | enc <;>
      rcases hb : r.body with _ | data <;>
        simp only [hloc, henc, hb] <;>
        try simp
    all_goals
      (rcases herr : data.errors with _ | ⟨_ | ⟨e0, es⟩⟩ <;>
        simp only [herr] <;> (try split) <;> simp_all)

/-- Witness for C9 (amended), on a response carrying a location header. -/
theorem C9_location_follows_every_location_header_witness :
    (Transaction.init.process_response respClean).1.location = "/db/data/transaction/9" ∧
    (Transaction.init.process_response respClean).1.started = true :=
  (C9_location_follows_every_location_header Transaction.init respClean).1
    "/db/data/transaction/9" rfl

/-- Claim C10: looking up the `content-encoding` header happens before the
body is decoded, so a response without that header makes processing fail
with a raw `KeyError` even when the body is well-formed JSON — in which
case the body's `errors` list is never inspected (`rolled_back` is left
unchanged) — and each request-issuing operation propagates that error. -/
theorem C10_missing_content_encoding_is_key_error (t : Transaction) (r : Response)
    (henc : headersGet r.headers "content-encoding" = none) :
    (t.process_response r).2 = .error (.keyError "content-encoding") ∧
    (t.process_response r).1.rolled_back = t.rolled_back ∧
    (t.is_operable = true → t.statements ≠ [] →
      (t.execute r).2.2 = .error (.keyError "content-encoding")) ∧
    (t.is_operable = true →
      (t.commit r).2.2 = .error (.keyError "content-encoding")) ∧
    (t.is_operable = true → t.started = true →
      (t.rollback r).2.2 = .error (.keyError "content-encoding")) := by
  obtain ⟨h1, h2, -⟩ := process_response_missing_encoding t r henc
  refine ⟨h1, h2, ?_, ?_, ?_⟩
  · intro hop hne
    rw [(execute_outcome_eq t r hop hne).1, h1]
    rfl
  · intro hop
    rw [(commit_outcome_eq t r hop).1, h1]
  · intro hop hst
    rw [(rollback_outcome_eq t r hop hst).1, h1]

/-- Witness for C10, on a started transaction with one pending statement
and a header-less response whose body is well-formed and even reports an
error (whose presence is never seen: `rolled_back` stays false). -/
theorem C10_missing_content_encoding_is_key_error_witness :
    (tPendingStarted.process_response respNoEncoding).2 = .error (.keyError "content-encoding") ∧
    (tPendingStarted.process_response respNoEncoding).1.rolled_back = false ∧
    (tPendingStarted.execute respNoEncoding).2.2 = .error (.keyError "content-encoding") ∧
    (tPendingStarted.commit respNoEncoding).2.2 = .error (.keyError "content-encoding") ∧
    (tPendingStarted.rollback respNoEncoding).2.2 = .error (.keyError "content-encoding") := by
  obtain ⟨h1, h2, h3, h4, h5⟩ :=
    C10_missing_content_encoding_is_key_error tPendingStarted respNoEncoding rfl
  exact ⟨h1, h2, h3 rfl (by decide), h4 rfl, h5 rfl rfl⟩

theorem add_statement_operable (t : Transaction) (c : String) (p : Option Params)
    (hop : t.is_operable = true) :
    t.add_statement c p =
      ({ t with statements := t.statements ++ [mk_statement c p] }, [], .ok ()) := by
  simp [Transaction.add_statement, hop]

theorem cypher_propagates_commit_error (t : Transaction) (cs : String) (ps : Params)
    (b : Bool) (r : Response) (e : PyErr) (hop : t.is_operable = true)
    (hco : (({ t with statements := t.statements ++ [mk_statement cs (some ps)] }
      : Transaction).commit r).2.2 = .error e) :
    (Query.cypher t cs ps b r).2.2 = .error e := by
  unfold Query.cypher
  rw [add_statement_operable t cs (some ps) hop]
  dsimp only
  rcases hcm : ({ t with statements := t.statements ++ [mk_statement cs (some ps)] }
      : Transaction).commit r with ⟨t2, reqs, res⟩
  rw [hcm] at hco
  rcases res with e2 | d
  · simp at hco
    subst hco
    rfl
  · simp at hco

/-- Claim C3 counterexample: an `execute()` on an operable transaction that
sends one pending statement, answered by a response whose errors list is
non-empty (timed-out code), raises before the archival step: afterwards
`executed_statements` has not grown and `statements` is not empty — so the
archival guarantee does not hold "regardless of whether the response
contained errors". -/
theorem C3_counterexample :
    (tPending.execute respTimeout).2.1 =
      [{ method := "POST", path := BASE_PATH, body := some [stmtMatch] }] ∧
    (tPending.execute respTimeout).2.2 =
      .error (.transactionClosedError (some "expired")) ∧
    (tPending.execute respTimeout).1.executed_statements = [] ∧
    (tPending.execute respTimeout).1.statements = [stmtMatch] :=
  ⟨rfl, rfl, rfl, rfl⟩

/-- Claim C3 (amended): after every `execute()`/`commit()` call that returns
normally, `executed_statements` has grown by exactly the statements sent, in
order, and `statements` is empty; this covers responses whose errors list is
non-empty with a non-timeout first code, but not the timed-out case, where
the call raises `TransactionClosedError` before archiving and the pending
statements remain. -/
theorem C3_archival_exactly_on_normal_return (t : Transaction) (r : Response) :
    (∀ p, (t.execute r).2.2 = .ok p →
      (t.execute r).1.executed_statements = t.executed_statements ++ t.statements ∧
      (t.execute r).1.statements = []) ∧
    (∀ p, (t.commit r).2.2 = .ok p →
      (t.commit r).1.executed_statements = t.executed_statements ++ t.statements ∧
      (t.commit r).1.statements = []) := by
  constructor
  · intro p hok
    cases hop : t.is_operable with
    | false =>
      rw [execute_closed t r hop] at hok
      exact absurd hok (by simp)
    | true =>
      unfold Transaction.execute at hok ⊢
      cases hie : t.statements.isEmpty with
      | true =>
        have hnil : t.statements = [] := by rwa [List.isEmpty_iff] at hie
        simp [hop, hie, hnil]
      | false =>
        rcases hpr : t.process_response r with ⟨t1, res⟩
        rcases res with e | d
        · rw [hpr] at hok
          simp [hop, hie] at hok
        · obtain ⟨hs, he, -⟩ := process_response_preserves_lists t r
          rw [hpr] at hs he
          have hs1 : t1.statements = t.statements := hs
          have he1 : t1.executed_statements = t.executed_statements := he
          obtain ⟨ha1, ha2, -, -⟩ := archive_current_statements_spec t1
          simp [hop, hie, hpr, ha1, ha2, hs1, he1]
  · intro p hok
    cases hop : t.is_operable with
    | false =>
      rw [commit_closed t r hop] at hok
      exact absurd hok (by simp)
    | true =>
      unfold Transaction.commit at hok ⊢
      rcases hpr : t.process_response r with ⟨t1, res⟩
      rcases res with e | d
      · rw [hpr] at hok
        simp [hop] at hok
      · obtain ⟨hs, he, -⟩ := process_response_preserves_lists t r
        rw [hpr] at hs he
        have hs1 : t1.statements = t.statements := hs
        have he1 : t1.executed_statements = t.executed_statements := he
        obtain ⟨ha1, ha2, -, -⟩ := archive_current_statements_spec t1
        simp [hop, hpr, ha1, ha2, hs1, he1]

/-- Witness for C3 (amended): a clean execute of one statement archives it
and empties the pending list. -/
theorem C3_archival_exactly_on_normal_return_witness :
    (tPending.execute respClean).1.executed_statements = [stmtMatch] ∧
    (tPending.execute respClean).1.statements = [] := by
  obtain ⟨hex, -⟩ := C3_archival_exactly_on_normal_return tPending respClean
  exact hex _ rfl

/-- Claim C5: a response whose first error carries the timed-out/unknown
code makes `execute()` and `commit()` raise `TransactionClosedError`
immediately instead of returning the payload, and `Query.cypher` propagates
that error in both raw and interpreted modes. -/
theorem C5_timeout_code_fails_closed_everywhere (t : Transaction) (r : Response)
    (p : Payload) (e0 : ErrorInfo) (es : List ErrorInfo) (enc : String)
    (hop : t.is_operable = true)
    (henc : headersGet r.headers "content-encoding" = some enc)
    (hbody : r.body = some p) (herr : p.errors = some (e0 :: es))
    (hcode : e0.code = some TRANSACTION_TIMED_OUT_CODE) :
    (t.statements ≠ [] →
      (t.execute r).2.2 = .error (.transactionClosedError e0.message)) ∧
    (t.commit r).2.2 = .error (.transactionClosedError e0.message) ∧
    (∀ cs ps b, (Query.cypher t cs ps b r).2.2 =
      .error (.transactionClosedError e0.message)) := by
  have hto := process_response_timeout_outcome t r p e0 es enc henc hbody herr hcode
  refine ⟨?_, ?_, ?_⟩
  · intro hne
    rw [(execute_outcome_eq t r hop hne).1, hto]
    rfl
  · rw [(commit_outcome_eq t r hop).1, hto]
  · intro cs ps b
    apply cypher_propagates_commit_error t cs ps b r _ hop
    have hop1 : ({ t with statements := t.statements ++ [mk_statement cs (some ps)] }
        : Transaction).is_operable = true := hop
    rw [(commit_outcome_eq _ r hop1).1]
    exact process_response_timeout_outcome _ r p e0 es enc henc hbody herr hcode

/-- Witness for C5 on a concrete expired-transaction response. -/
theorem C5_timeout_code_fails_closed_everywhere_witness :
    (tPending.execute respTimeout).2.2 =
      .error (.transactionClosedError (some "expired")) ∧
    (tPending.commit respTimeout).2.2 =
      .error (.transactionClosedError (some "expired")) ∧
    (Query.cypher tPending "MATCH (n) RETURN n" [] false respTimeout).2.2 =
      .error (.transactionClosedError (some "expired")) ∧
    (Query.cypher tPending "MATCH (n) RETURN n" [] true respTimeout).2.2 =
      .error (.transactionClosedError (some "expired")) := by
  obtain ⟨h1, h2, h3⟩ := C5_timeout_code_fails_closed_everywhere tPending respTimeout
    payloadTimeout errTimeout [] "utf-8" rfl rfl rfl rfl rfl
  exact ⟨h1 (by decide), h2, h3 "MATCH (n) RETURN n" [] false,
    h3 "MATCH (n) RETURN n" [] true⟩

/-- Claim C7: when the first reported error carries the syntax-error code,
the raw protocol layer returns the decoded payload without raising —
`execute()` and `commit()` yield `.ok` — while the interpreting layer
(`Query.cypher` with `raw := false`) raises `CypherSyntaxError` carrying the
server's message (`raw := true` returns the raw payload). -/
theorem C7_syntax_error_raw_returns_interpreted_raises (t : Transaction)
    (r : Response) (p : Payload) (e0 : ErrorInfo) (es : List ErrorInfo) (enc : String)
    (hop : t.is_operable = true)
    (henc : headersGet r.headers "content-encoding" = some enc)
    (hbody : r.body = some p) (herr : p.errors = some (e0 :: es))
    (hcode : e0.code = some CYPHER_SYNTAX_ERROR_CODE) :
    (t.statements ≠ [] → (t.execute r).2.2 = .ok (some p)) ∧
    (t.commit r).2.2 = .ok p ∧
    (∀ cs ps, (Query.cypher t cs ps true r).2.2 = .ok (.raw p)) ∧
    (∀ cs ps, (Query.cypher t cs ps false r).2.2 =
      .error (.cypherSyntaxError e0.message)) := by
  have hne : CYPHER_SYNTAX_ERROR_CODE ≠ TRANSACTION_TIMED_OUT_CODE := by decide
  have hnt := process_response_nontimeout_outcome t r p e0 es enc
    CYPHER_SYNTAX_ERROR_CODE henc hbody herr hcode hne
  refine ⟨?_, ?_, ?_, ?_⟩
  · intro hne2
    rw [(execute_outcome_eq t r hop hne2).1, hnt]
    rfl
  · rw [(commit_outcome_eq t r hop).1, hnt]
  · intro cs ps
    unfold Query.cypher
    rw [add_statement_operable t cs (some ps) hop]
    dsimp only
    have hop1 : ({ t with statements := t.statements ++ [mk_statement cs (some ps)] }
        : Transaction).is_operable = true := hop
    have hok : (({ t with statements := t.statements ++ [mk_statement cs (some ps)] }
        : Transaction).commit r).2.2 = .ok p := by
      rw [(commit_outcome_eq _ r hop1).1]
      exact process_response_nontimeout_outcome _ r p e0 es enc
        CYPHER_SYNTAX_ERROR_CODE henc hbody herr hcode hne
    rcases hcm : ({ t with statements := t.statements ++ [mk_statement cs (some ps)] }
        : Transaction).commit r with ⟨t2, reqs, res⟩
    rw [hcm] at hok
    have hok1 : res = .ok p := by simpa using hok
    subst hok1
    simp
  · intro cs ps
    unfold Query.cypher
    rw [add_statement_operable t cs (some ps) hop]
    dsimp only
    have hop1 : ({ t with statements := t.statements ++ [mk_statement cs (some ps)] }
        : Transaction).is_operable = true := hop
    have hok : (({ t with statements := t.statements ++ [mk_statement cs (some ps)] }
        : Transaction).commit r).2.2 = .ok p := by
      rw [(commit_outcome_eq _ r hop1).1]
      exact process_response_nontimeout_outcome _ r p e0 es enc
        CYPHER_SYNTAX_ERROR_CODE henc hbody herr hcode hne
    rcases hcm : ({ t with statements := t.statements ++ [mk_statement cs (some ps)] }
        : Transaction).commit r with ⟨t2, reqs, res⟩
    rw [hcm] at hok
    have hok1 : res = .ok p := by simpa using hok
    subst hok1
    simp [herr, hcode]

/-- Witness for C7 on a concrete syntax-error response. -/
theorem C7_syntax_error_raw_returns_interpreted_raises_witness :
    (tPending.execute respSyntaxErr).2.2 = .ok (some payloadSyntaxErr) ∧
    (tPending.commit respSyntaxErr).2.2 = .ok payloadSyntaxErr ∧
    (Query.cypher tPending "MATCH (n" [] true respSyntaxErr).2.2 =
      .ok (.raw payloadSyntaxErr) ∧
    (Query.cypher tPending "MATCH (n" [] false respSyntaxErr).2.2 =
      .error (.cypherSyntaxError (some "Invalid input")) := by
  obtain ⟨h1, h2, h3, h4⟩ := C7_syntax_error_raw_returns_interpreted_raises tPending
    respSyntaxErr payloadSyntaxErr errSyntaxErr [] "utf-8" rfl rfl rfl rfl rfl
  exact ⟨h1 (by decide), h2, h3 "MATCH (n" [], h4 "MATCH (n" []⟩
